import Mathlib

/-!
Verification of the CAM (Cooperative Awareness Message) networking core of the
`purs3lab/ctf-package` repository: the message model (`CAMData.to_dict` /
`CAMData.from_dict` in `vlib/core/sensors.py`), the ETSI triggering state
machine (`V2XSensor._check_cam_conditions`), the range-gated broadcast
(`V2XSensor._send_cam`, `WebSocketVirtualSensor.inject_cam_message`), the
receive pipeline (`V2XSensor.receive_cam`), the message router
(`CommunicationHub.route_message` in `vlib/core/simplesens.py`), and the
external bridge (`vlib/core/websocket_bridge.py`).

Python numbers are modelled by `ℚ` (all literals in the source are decimal);
`math.sqrt`, `math.log10` and `10 ** x` are modelled over `ℝ`.  Python `None`
is modelled by `Option`, dict/str/list truthiness is made explicit at every
use site, and Python exceptions are modelled with `Except String`.
-/

namespace CtfPackage

/-- A 3-D coordinate triple, standing for both `carla.Location` /
`carla.Vector3D` objects and their serialized `{"x": _, "y": _, "z": _}`
dictionaries (both always truthy / non-empty when present). -/
structure Vec3 where
  x : ℚ
  y : ℚ
  z : ℚ
deriving DecidableEq, Repr

/-- A `datetime` value, identified with its ISO string.
`isoformat` / `fromisoformat` are mutually inverse, and a `datetime` object
is always truthy. -/
structure Datetime where
  iso : String
deriving DecidableEq, Repr

/-- The `vehicle_data` dictionary handed to the `CAMData` constructor.
Each field is `none` when the corresponding key is absent. -/
structure VehicleData where
  position : Option Vec3 := none
  heading : Option ℚ := none
  speed : Option ℚ := none
  velocity : Option Vec3 := none
  acceleration : Option Vec3 := none
  yaw_rate : Option ℚ := none
  vehicle_role : Option String := none
  path_history : Option (List Vec3) := none
deriving DecidableEq, Repr

/-- Truthiness of the `vehicle_data` dictionary: a dict is falsy iff it has
no keys. -/
def VehicleData.dictEmpty (vd : VehicleData) : Bool :=
  vd.position.isNone && vd.heading.isNone && vd.speed.isNone && vd.velocity.isNone &&
    vd.acceleration.isNone && vd.yaw_rate.isNone && vd.vehicle_role.isNone &&
    vd.path_history.isNone

/-- The `CAMData` object of `sensors.py` (its attributes after `__init__`).
`extensions` is the opaque key/value side channel: keys mapped to encoded
values, never interpreted by the core. -/
structure CAMData where
  sender_id : String
  timestamp : Datetime
  vehicle_data : VehicleData
  extensions : List (String × String)
  station_id : String
  generation_delta_time : ℚ
  station_type : String
  include_vehicle_data_container : Bool
  position : Option Vec3
  heading : ℚ
  speed : ℚ
  acceleration : Option Vec3
  yaw_rate : ℚ
  vehicle_role : String
  path_history : List Vec3
deriving DecidableEq, Repr

/-- Constructor `CAMData.__init__` (sensors.py lines 18-45).  `vehicle_data` and
`extensions` may be `None`; `station_type` falls back on the truthiness of
the `vehicle_data` argument when no override is supplied. -/
def CAMData.make (sender_id : String) (timestamp : Datetime)
    (vehicle_data : Option VehicleData) (extensions : Option (List (String × String)))
    (station_type_override : Option String)
    (include_vehicle_data_container : Bool) : CAMData :=
  let vdTruthy : Bool := match vehicle_data with
    | none => false
    | some vd => !vd.dictEmpty
  let vd : VehicleData := vehicle_data.getD {}
  { sender_id := sender_id
    timestamp := timestamp
    vehicle_data := vd
    extensions := extensions.getD []
    station_id := sender_id
    generation_delta_time := 0
    station_type :=
      station_type_override.getD (if vdTruthy then "passenger-car" else "road-side-unit")
    include_vehicle_data_container := include_vehicle_data_container
    position := vd.position
    heading := vd.heading.getD 0
    speed := vd.speed.getD 0
    acceleration := vd.acceleration
    yaw_rate := vd.yaw_rate.getD 0
    vehicle_role := vd.vehicle_role.getD "default"
    path_history := vd.path_history.getD [] }

/-- The JSON object produced by `CAMData.to_dict` / consumed by
`CAMData.from_dict`.  Fields that `from_dict` treats as optional are
`Option`-typed so that decode accepts a superset of what encode emits. -/
structure WireCAM where
  sender_id : String
  timestamp : Option String
  extensions : List (String × String)
  station_id : String
  generation_delta_time : ℚ
  station_type : String
  position : Option Vec3
  heading : Option ℚ
  speed : Option ℚ
  acceleration : Option Vec3
  yaw_rate : Option ℚ
  vehicle_role : Option String
  path_history : Option (List Vec3)
  vehicle_data : Option VehicleData
deriving DecidableEq, Repr

/-- Encoder `CAMData.to_dict` (sensors.py lines 63-104).  A present position or
acceleration serializes to its (always truthy) `{x,y,z}` dict; the
`vehicle_data` key is emitted only under `include_vehicle_data_container`. -/
def CAMData.to_dict (c : CAMData) : WireCAM :=
  { sender_id := c.sender_id
    timestamp := some c.timestamp.iso
    extensions := c.extensions
    station_id := c.station_id
    generation_delta_time := c.generation_delta_time
    station_type := c.station_type
    position := c.position
    heading := some c.heading
    speed := some c.speed
    acceleration := c.acceleration
    yaw_rate := some c.yaw_rate
    vehicle_role := some c.vehicle_role
    path_history := some c.path_history
    vehicle_data := if c.include_vehicle_data_container then some c.vehicle_data else none }

/-- Decoder `CAMData.from_dict` (sensors.py lines 106-146).  `now` stands for
`datetime.now()`, used when the wire timestamp is absent or falsy.
Note that no `station_type_override` is passed to the constructor. -/
def CAMData.from_dict (now : Datetime) (data : WireCAM) : CAMData :=
  let timestamp : Datetime := match data.timestamp with
    | some s => if s = "" then now else ⟨s⟩
    | none => now
  let position : Option Vec3 := data.position
  let acceleration : Option Vec3 := data.acceleration
  let vd : VehicleData := data.vehicle_data.getD {}
  let vd : VehicleData := match position with
    | some p => { vd with position := some p }
    | none => vd
  let vd : VehicleData := match acceleration with
    | some a => { vd with acceleration := some a }
    | none => vd
  let vd : VehicleData := match data.heading with
    | some h => { vd with heading := some h }
    | none => vd
  let vd : VehicleData := match data.speed with
    | some sp => { vd with speed := some sp }
    | none => vd
  let vd : VehicleData := match data.yaw_rate with
    | some yr => { vd with yaw_rate := some yr }
    | none => vd
  let vd : VehicleData := match data.vehicle_role with
    | some r => if r = "" then vd else { vd with vehicle_role := some r }
    | none => vd
  let vd : VehicleData := match data.path_history with
    | some ph => if ph = [] then vd else { vd with path_history := some ph }
    | none => vd
  CAMData.make data.sender_id timestamp (some vd) (some data.extensions) none false

/-- Decoding the wire encoding of a message: `from_dict` of `to_dict`. -/
def decodeEncode (now : Datetime) (m : CAMData) : CAMData :=
  CAMData.from_dict now m.to_dict

/-- A fixed `datetime.now()` value used to instantiate decode at concrete inputs. -/
def nowD : Datetime := ⟨"2024-01-01T12:00:00"⟩

/-- A fixed-unit CAM message: `CAMData` constructed with `vehicle_data=None`,
as `V2XSensor._send_cam` does for a sensor with no attached vehicle. -/
def camFixedUnit : CAMData :=
  CAMData.make ("rsu_7") ⟨"2024-01-01T00:00:00"⟩ none none none false

/-- A vehicle CAM message with empty extensions and a populated path history. -/
def camVehicle : CAMData :=
  CAMData.make ("v2x_1234") ⟨"2024-01-01T00:00:01"⟩
    (some { position := some ⟨1, 2, 3⟩
            heading := some 90
            speed := some 25
            velocity := some ⟨25, 0, 0⟩
            acceleration := some ⟨0, 1, 0⟩
            yaw_rate := some 2
            path_history := some [⟨0, 0, 0⟩, ⟨1, 1, 1⟩] })
    (some []) none false

/-- C1, counterexample.  The round-trip is not lossless: a message built with
`vehicle_data=None` has `station_type = "road-side-unit"`, but `from_dict`
passes no `station_type_override` and always reconstructs a non-empty
`vehicle_data` dict (the wire always carries a `heading`), so the decoded
message has `station_type = "passenger-car"` and differs from the original. -/
theorem cam_roundtrip_loses_station_type :
    camFixedUnit.station_type = "road-side-unit" ∧
    (decodeEncode nowD camFixedUnit).station_type = "passenger-car" ∧
    decodeEncode nowD camFixedUnit ≠ camFixedUnit := by
  refine ⟨rfl, rfl, by decide⟩

/-- C1, amended.  Decoding the wire encoding of `m` restores `sender_id`,
`timestamp`, `position`, `heading`, `speed`, `acceleration`, `yaw_rate`,
`path_history` and `extensions` exactly, and restores `vehicle_role`
whenever it is non-empty; but `station_type` always decodes to
`"passenger-car"`, whatever the original station type was. -/
theorem cam_roundtrip_amended (now : Datetime) (m : CAMData)
    (hts : m.timestamp.iso ≠ "") (hrole : m.vehicle_role ≠ "")
    (hinc : m.include_vehicle_data_container = false) :
    (decodeEncode now m).sender_id = m.sender_id ∧
    (decodeEncode now m).timestamp = m.timestamp ∧
    (decodeEncode now m).position = m.position ∧
    (decodeEncode now m).heading = m.heading ∧
    (decodeEncode now m).speed = m.speed ∧
    (decodeEncode now m).acceleration = m.acceleration ∧
    (decodeEncode now m).yaw_rate = m.yaw_rate ∧
    (decodeEncode now m).vehicle_role = m.vehicle_role ∧
    (decodeEncode now m).path_history = m.path_history ∧
    (decodeEncode now m).extensions = m.extensions ∧
    (decodeEncode now m).station_type = "passenger-car" := by
  simp only [decodeEncode, CAMData.to_dict, CAMData.from_dict, CAMData.make, hinc]
  cases hm : m.position <;> cases ha : m.acceleration <;>
    by_cases hph : m.path_history = [] <;>
    simp [hts, hrole, hph, VehicleData.dictEmpty, Datetime.mk.injEq]

/-- C1 amended, witness: the amended round-trip evaluated on a concrete
vehicle message with empty extensions and a populated path history. -/
theorem cam_roundtrip_amended_witness :
    (camVehicle.timestamp.iso ≠ "" ∧ camVehicle.vehicle_role ≠ "" ∧
      camVehicle.include_vehicle_data_container = false) ∧
    (decodeEncode nowD camVehicle).heading = camVehicle.heading ∧
    (decodeEncode nowD camVehicle).path_history = camVehicle.path_history ∧
    (decodeEncode nowD camVehicle).extensions = camVehicle.extensions :=
  ⟨⟨by decide, by decide, by decide⟩,
    (cam_roundtrip_amended nowD camVehicle (by decide) (by decide) (by decide)).2.2.2.1,
    (cam_roundtrip_amended nowD camVehicle (by decide) (by decide) (by decide)).2.2.2.2.2.2.2.2.1,
    (cam_roundtrip_amended nowD camVehicle (by decide) (by decide) (by decide)).2.2.2.2.2.2.2.2.2.1⟩

/-- Configuration `V2XSensorConfig` (sensors.py lines 149-172), with its default values. -/
structure V2XSensorConfig where
  transmit_power : ℚ := 21.5
  receiver_sensitivity : ℚ := -99
  frequency : ℚ := 5.9
  filter_distance : ℚ := 500
  gen_cam_min : ℚ := 0.1
  gen_cam_max : ℚ := 1
  low_freq_interval : ℚ := 0.5
  position_threshold : ℚ := 4
  heading_threshold : ℚ := 4
  speed_threshold : ℚ := 5
  max_message_history : ℕ := 100
  communication_timeout : ℚ := 2
  include_vehicle_data_container : Bool := false
deriving DecidableEq, Repr

/-- The default configuration, `V2XSensorConfig()`. -/
def defaultConfig : V2XSensorConfig := {}

/-- A message filter: raises (`Except.error`), or passes / rejects the message. -/
def MsgFilter : Type := CAMData → Except String Bool

/-- A message handler: raises (`Except.error`) or returns normally. -/
def MsgHandler : Type := CAMData → Except String Unit

/-- The mutable state of a `V2XSensor` (sensors.py lines 175-213).
`attach_to` is the truthiness of the attached actor (non-`None`); all
kinematic attributes are initialized, so every `hasattr` test in the source
succeeds. -/
structure V2XSensor where
  sensor_id : String
  attach_to : Bool
  config : V2XSensorConfig
  location : Option Vec3
  previous_location : Option Vec3
  previous_heading : Option ℚ
  previous_speed : ℚ
  heading : ℚ
  speed : ℚ
  received_messages : List CAMData
  message_filters : List MsgFilter
  message_handlers : List MsgHandler
  last_cam_time : ℚ
  last_low_freq_time : ℚ

/-- Python `math.sqrt` of the sum of squared coordinate differences: the Euclidean
distance computed at sensors.py lines 322-326, 434-438 and 563-566, and by
`carla.Location.distance`. -/
noncomputable def euclid (a b : Vec3) : ℝ :=
  Real.sqrt ((((a.x : ℝ) - (b.x : ℝ)) ^ 2) + (((a.y : ℝ) - (b.y : ℝ)) ^ 2) +
    (((a.z : ℝ) - (b.z : ℝ)) ^ 2))

/-- The heading-change trigger (sensors.py lines 314-318): raw absolute
difference compared against the threshold and against `360 - threshold`. -/
def headingTrigger (cfg : V2XSensorConfig) (heading : ℚ) (previous_heading : Option ℚ) :
    Prop :=
  match previous_heading with
  | some ph =>
      |heading - ph| > cfg.heading_threshold ∨ |heading - ph| > 360 - cfg.heading_threshold
  | none => False

/-- The position-change trigger (sensors.py lines 321-329): Euclidean distance
from the previous location strictly above the threshold, evaluated only when
a current location is set. -/
noncomputable def positionTrigger (cfg : V2XSensorConfig) (location : Option Vec3)
    (ploc : Vec3) : Prop :=
  match location with
  | some loc => euclid loc ploc > (cfg.position_threshold : ℝ)
  | none => False

/-- The speed-change trigger (sensors.py lines 332-336). -/
def speedTrigger (cfg : V2XSensorConfig) (speed previous_speed : ℚ) : Prop :=
  |speed - previous_speed| > cfg.speed_threshold

/-- The send decision of `V2XSensor._check_cam_conditions` (sensors.py lines
297-336) at wall-clock time `t`: the maximum-interval rule, then the
minimum-interval suppression, then — only with a previous location *and* an
attached actor — the three delta triggers. -/
noncomputable def camShouldSend (s : V2XSensor) (t : ℚ) : Prop :=
  if s.config.gen_cam_max ≤ t - s.last_cam_time then True
  else if t - s.last_cam_time < s.config.gen_cam_min then False
  else
    match s.previous_location, s.attach_to with
    | some ploc, true =>
        headingTrigger s.config s.heading s.previous_heading ∨
          positionTrigger s.config s.location ploc ∨
          speedTrigger s.config s.speed s.previous_speed
    | _, _ => False

/-- A freshly relevant sensor state: default config, attached, previous
observation on record, current observation equal to the previous one. -/
def baseSensor : V2XSensor :=
  { sensor_id := "v2x_1"
    attach_to := true
    config := defaultConfig
    location := some ⟨0, 0, 0⟩
    previous_location := some ⟨0, 0, 0⟩
    previous_heading := some 0
    previous_speed := 0
    heading := 0
    speed := 0
    received_messages := []
    message_filters := []
    message_handlers := []
    last_cam_time := 0
    last_low_freq_time := 0 }

theorem euclid_self (p : Vec3) : euclid p p = 0 := by
  simp [euclid]

/-- C4, amended.  The triggering rules in evaluation order: (1) at or past
the maximum interval the station must send, unconditionally; (2) under the
minimum interval nothing further is evaluated and no send occurs; (3)
otherwise, when a previous observation exists *and the sensor is attached to
an actor*, a send is triggered iff at least one delta trigger fires. -/
theorem cam_trigger_rules (s : V2XSensor) (t : ℚ) :
    (s.config.gen_cam_max ≤ t - s.last_cam_time → camShouldSend s t) ∧
    (¬ s.config.gen_cam_max ≤ t - s.last_cam_time →
      t - s.last_cam_time < s.config.gen_cam_min → ¬ camShouldSend s t) ∧
    (¬ s.config.gen_cam_max ≤ t - s.last_cam_time →
      ¬ t - s.last_cam_time < s.config.gen_cam_min →
      ∀ ploc, s.previous_location = some ploc → s.attach_to = true →
        (camShouldSend s t ↔
          headingTrigger s.config s.heading s.previous_heading ∨
            positionTrigger s.config s.location ploc ∨
            speedTrigger s.config s.speed s.previous_speed)) := by
  refine ⟨fun hmax => ?_, fun hmax hmin => ?_, fun hmax hmin ploc hprev hatt => ?_⟩
  · simp [camShouldSend, hmax]
  · simp [camShouldSend, hmax, hmin]
  · simp [camShouldSend, hmax, hmin, hprev, hatt]

/-- A sensor in the delta-trigger window whose heading jumped by 10°. -/
def sHeadingJump : V2XSensor := { baseSensor with heading := 10 }

/-- C4 amended, witness: with the default thresholds, a 10° heading change
0.5 s after the last CAM triggers a send; 0.01 s after the last CAM nothing
is sent; 1 s after the last CAM a send is forced. -/
theorem cam_trigger_rules_witness :
    camShouldSend sHeadingJump (1/2) ∧ ¬ camShouldSend baseSensor (1/100) ∧
      camShouldSend baseSensor 1 :=
  ⟨((cam_trigger_rules sHeadingJump (1/2)).2.2 (by norm_num [sHeadingJump, baseSensor, defaultConfig])
      (by norm_num [sHeadingJump, baseSensor, defaultConfig]) ⟨0, 0, 0⟩ rfl rfl).mpr
      (Or.inl (by norm_num [headingTrigger, sHeadingJump, baseSensor, defaultConfig])),
    (cam_trigger_rules baseSensor (1/100)).2.1 (by norm_num [baseSensor, defaultConfig])
      (by norm_num [baseSensor, defaultConfig]),
    (cam_trigger_rules baseSensor 1).1 (by norm_num [baseSensor, defaultConfig])⟩

/-- A sensor with no attached actor whose position moved by 5 m. -/
def sDetached : V2XSensor := { baseSensor with attach_to := false, location := some ⟨5, 0, 0⟩ }

/-- C4, counterexample.  For a sensor with no attached actor, the delta
triggers are never evaluated (`elif self.previous_location and
self.attach_to:`): here a previous observation exists, the minimum interval
has passed, the maximum has not, the position delta trigger fires (5 m > 4 m),
and yet no send is triggered — contradicting the claim that, whenever a
previous observation exists, a send occurs iff some delta trigger holds. -/
theorem cam_trigger_detached_counterexample :
    sDetached.previous_location = some ⟨0, 0, 0⟩ ∧
    ¬ sDetached.config.gen_cam_max ≤ (1/2 : ℚ) - sDetached.last_cam_time ∧
    ¬ ((1/2 : ℚ) - sDetached.last_cam_time < sDetached.config.gen_cam_min) ∧
    positionTrigger sDetached.config sDetached.location ⟨0, 0, 0⟩ ∧
    ¬ camShouldSend sDetached (1/2) := by
  refine ⟨rfl, by norm_num [sDetached, baseSensor, defaultConfig],
    by norm_num [sDetached, baseSensor, defaultConfig], ?_, ?_⟩
  · show euclid ⟨5, 0, 0⟩ ⟨0, 0, 0⟩ > ((4 : ℚ) : ℝ)
    have h5 : euclid ⟨5, 0, 0⟩ ⟨0, 0, 0⟩ = 5 := by
      simp only [euclid]
      norm_num
      rw [show (25 : ℝ) = 5 ^ 2 by norm_num, Real.sqrt_sq (by norm_num)]
    rw [h5]
    norm_num
  · simp [camShouldSend, sDetached, baseSensor, defaultConfig]
    norm_num

/-- A sensor whose heading changed from 358° to 2° across the wrap boundary. -/
def sWrap : V2XSensor := { baseSensor with previous_heading := some 358, heading := 2 }

/-- A sensor whose heading changed by exactly 4° away from the wrap boundary. -/
def sAway : V2XSensor := { baseSensor with previous_heading := some 90, heading := 94 }

theorem camShouldSend_sWrap (t last : ℚ) (hmax : ¬ ((1 : ℚ) ≤ t - last))
    (hmin : ¬ (t - last < (0.1 : ℚ))) : camShouldSend { sWrap with last_cam_time := last } t := by
  unfold camShouldSend
  split
  · trivial
  split
  · next hlt => exact absurd (by simpa [sWrap, baseSensor, defaultConfig] using hlt) hmin
  exact Or.inl (by norm_num [headingTrigger, sWrap, baseSensor, defaultConfig])

theorem camShouldSend_sAway_not (t last : ℚ) (hmax : ¬ ((1 : ℚ) ≤ t - last))
    (hmin : ¬ (t - last < (0.1 : ℚ))) : ¬ camShouldSend { sAway with last_cam_time := last } t := by
  unfold camShouldSend
  split
  · next hge => exact absurd (by simpa [sAway, baseSensor, defaultConfig] using hge) hmax
  split
  · next hlt => simp
  show ¬ (headingTrigger _ _ _ ∨ positionTrigger _ (some ⟨0, 0, 0⟩) ⟨0, 0, 0⟩ ∨ speedTrigger _ _ _)
  rintro (h | h | h)
  · revert h
    norm_num [headingTrigger, sAway, baseSensor, defaultConfig]
  · revert h
    show ¬ euclid ⟨0, 0, 0⟩ ⟨0, 0, 0⟩ > ((4 : ℚ) : ℝ)
    rw [euclid_self]
    norm_num
  · revert h
    norm_num [speedTrigger, sAway, baseSensor, defaultConfig]

/-- C5, counterexample.  With `heading_threshold = 4`, a heading change from
358° to 2° and a 4° change away from the wrap boundary are *not* treated
identically, and they do not both trigger: in the delta window (0.5 s after
the last CAM, all other triggers silent) the wrap case sends (its raw
difference 356 exceeds the threshold) while the exact 4° change does not
(the comparison `heading_diff > 4` is strict). -/
theorem heading_wrap_counterexample :
    camShouldSend sWrap (1/2) ∧ ¬ camShouldSend sAway (1/2) := by
  have h1 : sWrap = { sWrap with last_cam_time := 0 } := rfl
  have h2 : sAway = { sAway with last_cam_time := 0 } := rfl
  rw [h1, h2]
  exact ⟨camShouldSend_sWrap (1/2) 0 (by norm_num) (by norm_num),
    camShouldSend_sAway_not (1/2) 0 (by norm_num) (by norm_num)⟩

/-- C5, amended.  In the delta window, the 358°→2° wrap change does trigger a
send (because its raw absolute difference, 356°, exceeds the 4° threshold),
but a heading change of exactly 4° away from the boundary triggers nothing:
the comparisons are strict, so the two changes are treated differently at
the threshold.  Any heading change with raw difference strictly above 4°
does trigger. -/
theorem heading_wrap_amended (t last : ℚ) (hmax : ¬ ((1 : ℚ) ≤ t - last))
    (hmin : ¬ (t - last < (0.1 : ℚ))) :
    camShouldSend { sWrap with last_cam_time := last } t ∧
    ¬ camShouldSend { sAway with last_cam_time := last } t ∧
    ¬ headingTrigger defaultConfig 94 (some 90) ∧
    (∀ h ph : ℚ, |h - ph| > 4 → headingTrigger defaultConfig h (some ph)) := by
  refine ⟨camShouldSend_sWrap t last hmax hmin, camShouldSend_sAway_not t last hmax hmin,
    by norm_num [headingTrigger, defaultConfig], fun h ph hgt => ?_⟩
  exact Or.inl (by simpa [defaultConfig] using hgt)

/-- C5 amended, witness: the amended statement evaluated 0.5 s after the last
CAM generation. -/
theorem heading_wrap_amended_witness :
    camShouldSend { sWrap with last_cam_time := 0 } (1/2) ∧
    ¬ camShouldSend { sAway with last_cam_time := 0 } (1/2) ∧
    ¬ headingTrigger defaultConfig 94 (some 90) ∧
    (∀ h ph : ℚ, |h - ph| > 4 → headingTrigger defaultConfig h (some ph)) :=
  heading_wrap_amended (1/2) 0 (by norm_num) (by norm_num)

/-- The transmission range computed then discarded by `V2XSensor._send_cam`
(sensors.py lines 422-429): the free-space path-loss inversion capped at
`filter_distance` is immediately overwritten by the constant 50. -/
noncomputable def sendCamMaxDistance (cfg : V2XSensorConfig) : ℝ :=
  let max_path_loss : ℝ := |(cfg.transmit_power : ℝ) - (cfg.receiver_sensitivity : ℝ)|
  let frequency_loss : ℝ := 20 * Real.logb 10 ((cfg.frequency : ℝ) * 1000) + 32.44
  let max_distance : ℝ :=
    min ((10 : ℝ) ^ ((max_path_loss - frequency_loss) / 20) * 1000) (cfg.filter_distance : ℝ)
  let max_distance : ℝ := 50
  max_distance

/-- The transmission range computed then discarded by
`WebSocketVirtualSensor.inject_cam_message` (websocket_bridge.py lines
255-264): hardcoded default-ish constants, immediately overwritten by 30. -/
noncomputable def injectCamMaxDistance : ℝ :=
  let max_path_loss : ℝ := 140
  let frequency_loss : ℝ := 20 * Real.logb 10 (5900 * 1000) + 32.44
  let max_distance : ℝ := min ((10 : ℝ) ^ ((max_path_loss - frequency_loss) / 20) * 1000) 1000
  let max_distance : ℝ := 30
  max_distance

/-- Modelled from the spec (§4.3): the claimed maximum delivery range
`max_range(tx_power_dBm, rx_sensitivity_dBm, freq_GHz, cap_m)` — the
free-space path-loss inversion capped at `cap_m`, with no constant
override.  Stated here only to compare against the source's behaviour. -/
noncomputable def claimedMaxRange (tx rx freq cap : ℚ) : ℝ :=
  min ((10 : ℝ) ^ ((|(tx : ℝ) - (rx : ℝ)| - (20 * Real.logb 10 ((freq : ℝ) * 1000) + 32.44)) / 20)
    * 1000) (cap : ℝ)

/-- The per-recipient delivery condition of the broadcast loop in
`V2XSensor._send_cam` (sensors.py lines 432-441): a different sensor id, a
known location, and Euclidean distance at most the (overridden) maximum
distance. -/
noncomputable def deliverCheck (sender : V2XSensor) (loc : Vec3) (s : V2XSensor) : Prop :=
  s.sensor_id ≠ sender.sensor_id ∧
    ∃ rloc, s.location = some rloc ∧ euclid loc rloc ≤ sendCamMaxDistance sender.config

open Classical in
/-- The sensors the loop in `V2XSensor._send_cam` delivers to, in registry
order; empty when the sender has no location (the early return at lines
361-362). -/
noncomputable def sendCamTargets (sender : V2XSensor) (sensors : List V2XSensor) :
    List V2XSensor :=
  match sender.location with
  | none => []
  | some loc => sensors.filter (fun s => decide (deliverCheck sender loc s))

/-- Run the message filters in order (`V2XSensor.receive_cam`, sensors.py
lines 454-457): a raising filter propagates its exception, a failing filter
ends processing with `false`, otherwise all pass. -/
def runFilters : List MsgFilter → CAMData → Except String Bool
  | [], _ => .ok true
  | f :: fs, cam =>
      match f cam with
      | .error e => .error e
      | .ok false => .ok false
      | .ok true => runFilters fs cam

/-- Receipt `V2XSensor.receive_cam` (sensors.py lines 452-469).  Filter exceptions
are *not* caught and propagate; a rejected message leaves the state
untouched; otherwise the message is appended to the bounded history and
every handler is invoked inside `try`/`except`, its outcome returned but
never propagated. -/
def receive_cam (s : V2XSensor) (cam : CAMData) :
    Except String (V2XSensor × List (Except String Unit)) :=
  match runFilters s.message_filters cam with
  | .error e => .error e
  | .ok false => .ok (s, [])
  | .ok true =>
      let msgs := s.received_messages ++ [cam]
      let msgs := if s.config.max_message_history < msgs.length then
        msgs.drop (msgs.length - s.config.max_message_history) else msgs
      let results := s.message_handlers.map (fun h => h cam)
      .ok ({ s with received_messages := msgs }, results)

open Classical in
/-- The broadcast loop of `V2XSensor._send_cam` over the registry: each
in-range recipient receives the CAM; an exception escaping `receive_cam`
aborts the loop, leaving later recipients untouched. -/
noncomputable def broadcastFrom (sender : V2XSensor) (loc : Vec3) (cam : CAMData) :
    List V2XSensor → Except String (List V2XSensor)
  | [] => .ok []
  | s :: rest =>
      if deliverCheck sender loc s then
        match receive_cam s cam with
        | .error e => .error e
        | .ok (s2, _) => (broadcastFrom sender loc cam rest).map (fun l => s2 :: l)
      else (broadcastFrom sender loc cam rest).map (fun l => s :: l)

/-- Send `V2XSensor._send_cam` restricted to its observable effect on the other
sensors: nothing happens when the sender has no location; otherwise the
broadcast loop runs over the registry. -/
noncomputable def send_cam (sender : V2XSensor) (cam : CAMData) (sensors : List V2XSensor) :
    Except String (List V2XSensor) :=
  match sender.location with
  | none => .ok sensors
  | some loc => broadcastFrom sender loc cam sensors

theorem sendCamMaxDistance_eq (cfg : V2XSensorConfig) : sendCamMaxDistance cfg = 50 := rfl

theorem injectCamMaxDistance_eq : injectCamMaxDistance = 30 := rfl

theorem euclid_axis (a : ℚ) (h : (0 : ℝ) ≤ (a : ℝ)) :
    euclid ⟨0, 0, 0⟩ ⟨a, 0, 0⟩ = (a : ℝ) := by
  simp only [euclid]
  push_cast
  rw [show ((0 : ℝ) - (a : ℝ)) ^ 2 + (0 - 0) ^ 2 + (0 - 0) ^ 2 = (a : ℝ) ^ 2 by ring]
  exact Real.sqrt_sq h

/-- A second sensor 30 m away from `baseSensor`. -/
def recv30 : V2XSensor :=
  { baseSensor with sensor_id := "v2x_2", location := some ⟨30, 0, 0⟩ }

/-- A second sensor 100 m away from `baseSensor`. -/
def recv100 : V2XSensor :=
  { baseSensor with sensor_id := "v2x_2", location := some ⟨100, 0, 0⟩ }

/-- C2, counterexample.  With the default configuration the claimed maximum
range `min(10^((|tx−rx| − (20·log10(freq·1000) + 32.44))/20)·1000, 500)` is
at least 100 m, yet a recipient 100 m from the sender — with a known
location and a distinct id — receives nothing: the code overwrites the
computed range with the constant 50 (sensors.py line 429). -/
theorem send_cam_range_counterexample :
    defaultConfig.transmit_power = 21.5 ∧ defaultConfig.receiver_sensitivity = -99 ∧
    defaultConfig.frequency = 5.9 ∧ defaultConfig.filter_distance = 500 ∧
    euclid ⟨0, 0, 0⟩ ⟨100, 0, 0⟩ ≤ claimedMaxRange 21.5 (-99) 5.9 500 ∧
    baseSensor.location = some ⟨0, 0, 0⟩ ∧
    recv100.location = some ⟨100, 0, 0⟩ ∧
    recv100.sensor_id ≠ baseSensor.sensor_id ∧
    sendCamTargets baseSensor [recv100] = [] := by
  have h100 : euclid ⟨0, 0, 0⟩ ⟨100, 0, 0⟩ = (100 : ℝ) := by
    rw [show ((⟨100, 0, 0⟩ : Vec3)) = (⟨(100 : ℚ), 0, 0⟩ : Vec3) from rfl, euclid_axis] <;> norm_num
  refine ⟨rfl, rfl, rfl, rfl, ?_, rfl, rfl, by decide, ?_⟩
  · rw [h100]
    show (100 : ℝ) ≤ min _ _
    have hlogb : Real.logb 10 (((5.9 : ℚ) : ℝ) * 1000) ≤ 4 := by
      rw [Real.logb_le_iff_le_rpow (by norm_num) (by norm_num)]
      rw [show (4 : ℝ) = ((4 : ℕ) : ℝ) by norm_num, Real.rpow_natCast]
      norm_num
    have habs : |((21.5 : ℚ) : ℝ) - ((-99 : ℚ) : ℝ)| = 120.5 := by
      rw [abs_of_pos] <;> norm_num
    refine le_min ?_ (by push_cast; norm_num)
    have hexp : (-1 : ℝ) ≤
        (|((21.5 : ℚ) : ℝ) - ((-99 : ℚ) : ℝ)| -
          (20 * Real.logb 10 (((5.9 : ℚ) : ℝ) * 1000) + 32.44)) / 20 := by
      rw [habs]
      have := hlogb
      linarith
    have hpow : (10 : ℝ) ^ (-1 : ℝ) ≤ (10 : ℝ) ^
        ((|((21.5 : ℚ) : ℝ) - ((-99 : ℚ) : ℝ)| -
          (20 * Real.logb 10 (((5.9 : ℚ) : ℝ) * 1000) + 32.44)) / 20) :=
      (Real.rpow_le_rpow_left_iff (by norm_num)).mpr hexp
    rw [Real.rpow_neg_one] at hpow
    show (100 : ℝ) ≤ _ * 1000
    nlinarith [hpow]
  · refine List.filter_eq_nil_iff.mpr ?_
    intro s hs
    rw [List.mem_singleton] at hs
    subst hs
    simp only [decide_eq_true_eq]
    rintro ⟨-, rloc, hr, hle⟩
    rw [show recv100.location = some ⟨100, 0, 0⟩ from rfl, Option.some_inj] at hr
    subst hr
    rw [h100, sendCamMaxDistance_eq] at hle
    norm_num at hle

/-- C2, amended.  The maximum delivery range actually used to gate the CAM
broadcast is the hardcoded constant 50 m in `V2XSensor._send_cam` (30 m in
`WebSocketVirtualSensor.inject_cam_message`); the free-space formula value
is computed and discarded.  A candidate recipient receives the message iff
it is a different sensor with a known location whose Euclidean distance from
the sender is at most 50 m. -/
theorem send_cam_range_amended (sender r : V2XSensor) (sensors : List V2XSensor) (loc : Vec3)
    (hloc : sender.location = some loc) :
    sendCamMaxDistance sender.config = 50 ∧ injectCamMaxDistance = 30 ∧
    (r ∈ sendCamTargets sender sensors ↔
      r ∈ sensors ∧ r.sensor_id ≠ sender.sensor_id ∧
        ∃ rloc, r.location = some rloc ∧ euclid loc rloc ≤ 50) := by
  refine ⟨rfl, rfl, ?_⟩
  simp only [sendCamTargets, hloc]
  rw [List.mem_filter]
  simp only [decide_eq_true_eq, deliverCheck, sendCamMaxDistance_eq]

/-- C2 amended, witness: a recipient 30 m away, with a known location and a
distinct id, is among the delivery targets of `baseSensor`. -/
theorem send_cam_range_amended_witness :
    baseSensor.location = some ⟨0, 0, 0⟩ ∧ recv30 ∈ sendCamTargets baseSensor [recv30] :=
  ⟨rfl,
    (send_cam_range_amended baseSensor recv30 [recv30] ⟨0, 0, 0⟩ rfl).2.2.mpr
      ⟨List.mem_singleton_self recv30, by decide,
        ⟨30, 0, 0⟩, rfl, by
          rw [show ((⟨30, 0, 0⟩ : Vec3)) = (⟨(30 : ℚ), 0, 0⟩ : Vec3) from rfl, euclid_axis] <;>
            norm_num⟩⟩

theorem runFilters_ok (cam : CAMData) :
    ∀ fs : List MsgFilter, (∀ f ∈ fs, ∃ b, f cam = .ok b) →
      ∃ b, runFilters fs cam = .ok b
  | [], _ => ⟨true, rfl⟩
  | f :: fs, h => by
    obtain ⟨b, hb⟩ := h f (List.mem_cons_self f fs)
    cases b
    · exact ⟨false, by simp [runFilters, hb]⟩
    · obtain ⟨b2, hb2⟩ := runFilters_ok cam fs (fun g hg => h g (List.mem_cons_of_mem f hg))
      exact ⟨b2, by simp [runFilters, hb, hb2]⟩

theorem receive_cam_ok (s : V2XSensor) (cam : CAMData)
    (h : ∀ f ∈ s.message_filters, ∃ b, f cam = .ok b) :
    ∃ out, receive_cam s cam = .ok out := by
  obtain ⟨b, hb⟩ := runFilters_ok cam s.message_filters h
  unfold receive_cam
  rw [hb]
  cases b
  · exact ⟨(s, []), rfl⟩
  · exact ⟨_, rfl⟩

theorem broadcastFrom_ok (sender : V2XSensor) (loc : Vec3) (cam : CAMData) :
    ∀ sensors : List V2XSensor,
      (∀ s ∈ sensors, ∀ f ∈ s.message_filters, ∃ b, f cam = .ok b) →
      ∃ out, broadcastFrom sender loc cam sensors = .ok out
  | [], _ => ⟨[], rfl⟩
  | s :: rest, h => by
    obtain ⟨out, hout⟩ :=
      broadcastFrom_ok sender loc cam rest (fun s2 hs2 => h s2 (List.mem_cons_of_mem s hs2))
    by_cases hc : deliverCheck sender loc s
    · obtain ⟨⟨s2, res⟩, ho⟩ := receive_cam_ok s cam (h s (List.mem_cons_self s rest))
      refine ⟨s2 :: out, ?_⟩
      rw [broadcastFrom, if_pos hc, ho, hout]
      rfl
    · refine ⟨s :: out, ?_⟩
      rw [broadcastFrom, if_neg hc, hout]
      rfl

/-- C9.  A station with no location observation yet transmits nothing: when
`location` is `None`, `_send_cam` returns before broadcasting, so the target
list is empty and every other sensor's state is untouched, whatever
triggering rule fired. -/
theorem no_send_without_location (sender : V2XSensor) (cam : CAMData)
    (sensors : List V2XSensor) (h : sender.location = none) :
    sendCamTargets sender sensors = [] ∧ send_cam sender cam sensors = .ok sensors := by
  constructor <;> simp [sendCamTargets, send_cam, h]

/-- A sender that has not yet received any location observation. -/
def sNoLoc : V2XSensor := { baseSensor with location := none }

/-- C9, witness: the location-less sender delivers to nobody, even with a
candidate recipient at its own previous coordinates. -/
theorem no_send_without_location_witness :
    sendCamTargets sNoLoc [recv30] = [] ∧ send_cam sNoLoc camVehicle [recv30] = .ok [recv30] :=
  no_send_without_location sNoLoc camVehicle [recv30] rfl

/-- A message filter that raises an exception on every message. -/
def badFilter : MsgFilter := fun _ => .error "filter boom"

/-- A recipient whose only filter raises. -/
def recvBad : V2XSensor :=
  { baseSensor with sensor_id := "v2x_bad", message_filters := [badFilter] }

/-- A recipient with no filters and no handlers. -/
def recvOk : V2XSensor := { baseSensor with sensor_id := "v2x_ok" }

theorem deliverCheck_colocated (s : V2XSensor) (hid : s.sensor_id ≠ baseSensor.sensor_id)
    (hloc : s.location = some ⟨0, 0, 0⟩) : deliverCheck baseSensor ⟨0, 0, 0⟩ s :=
  ⟨hid, ⟨0, 0, 0⟩, hloc, by rw [euclid_self, sendCamMaxDistance_eq]; norm_num⟩

/-- C8, counterexample.  An exception raised by a registered *filter* is not
caught: delivering to an in-range recipient whose filter raises makes the
whole send raise, so delivery to the remaining recipients of the same send
is aborted — here `recvOk`, which on its own would receive the message,
gets nothing because `recvBad` precedes it. -/
theorem receive_fault_counterexample :
    send_cam baseSensor camVehicle [recvBad, recvOk] = .error "filter boom" ∧
    send_cam baseSensor camVehicle [recvOk] =
      .ok [{ recvOk with received_messages := [camVehicle] }] := by
  have hcb : deliverCheck baseSensor ⟨0, 0, 0⟩ recvBad :=
    deliverCheck_colocated recvBad (by decide) rfl
  have hco : deliverCheck baseSensor ⟨0, 0, 0⟩ recvOk :=
    deliverCheck_colocated recvOk (by decide) rfl
  constructor
  · show broadcastFrom baseSensor ⟨0, 0, 0⟩ camVehicle [recvBad, recvOk] = .error "filter boom"
    rw [broadcastFrom, if_pos hcb]
    rfl
  · show broadcastFrom baseSensor ⟨0, 0, 0⟩ camVehicle [recvOk] =
      .ok [{ recvOk with received_messages := [camVehicle] }]
    rw [broadcastFrom, if_pos hco]
    rfl

/-- C8, amended.  An exception raised by a registered *handler* is caught and
does not abort processing: whenever the recipient's filters all return,
`receive_cam` succeeds and every handler is invoked (their outcomes are
collected and discarded), and a send over recipients whose filters all
return completes without raising, whatever the handlers do.  An exception
raised by a *filter*, however, is not caught: `receive_cam` propagates it. -/
theorem receive_fault_amended (cam : CAMData) :
    (∀ s : V2XSensor, (∀ f ∈ s.message_filters, ∃ b, f cam = .ok b) →
      ∃ out, receive_cam s cam = .ok out) ∧
    (∀ s : V2XSensor, runFilters s.message_filters cam = .ok true →
      receive_cam s cam = .ok
        ({ s with received_messages :=
            let msgs := s.received_messages ++ [cam]
            if s.config.max_message_history < msgs.length then
              msgs.drop (msgs.length - s.config.max_message_history) else msgs },
          s.message_handlers.map (fun h => h cam))) ∧
    (∀ (sender : V2XSensor) (sensors : List V2XSensor),
      (∀ s ∈ sensors, ∀ f ∈ s.message_filters, ∃ b, f cam = .ok b) →
      ∃ out, send_cam sender cam sensors = .ok out) ∧
    (∀ (s : V2XSensor) (e : String) (fs : List MsgFilter),
      s.message_filters = (fun _ => Except.error e) :: fs →
      receive_cam s cam = .error e) := by
  refine ⟨fun s h => receive_cam_ok s cam h, fun s h => ?_, fun sender sensors h => ?_,
    fun s e fs h => ?_⟩
  · simp [receive_cam, h]
  · cases hloc : sender.location with
    | none => exact ⟨sensors, by simp [send_cam, hloc]⟩
    | some loc =>
        obtain ⟨out, hout⟩ := broadcastFrom_ok sender loc cam sensors h
        refine ⟨out, ?_⟩
        rw [send_cam, hloc]
        exact hout
  · simp [receive_cam, runFilters, h]

/-- A handler that raises an exception on every message. -/
def badHandler : MsgHandler := fun _ => .error "handler boom"

/-- A recipient whose only handler raises. -/
def recvBadHandler : V2XSensor :=
  { baseSensor with sensor_id := "v2x_bh", message_handlers := [badHandler] }

/-- C8 amended, witness: a send to a recipient whose handler raises still
succeeds, the message is recorded, and the raising handler was invoked. -/
theorem receive_fault_amended_witness :
    receive_cam recvBadHandler camVehicle = .ok
      ({ recvBadHandler with received_messages := [camVehicle] }, [.error "handler boom"]) ∧
    (∃ out, send_cam baseSensor camVehicle [recvBadHandler] = .ok out) := by
  constructor
  · exact (receive_fault_amended camVehicle).2.1 recvBadHandler rfl
  · exact (receive_fault_amended camVehicle).2.2.1 baseSensor [recvBadHandler]
      (by intro s hs f hf; rw [List.mem_singleton] at hs; subst hs; simp [recvBadHandler, baseSensor] at hf)

/-- A `CommSensor` of simplesens.py as seen by the router: its actor id and
subscription set (empty set = subscribe to everything). -/
structure CommSensor where
  actor_id : ℕ
  subscriptions : List String
deriving DecidableEq, Repr

/-- The message dict built by `CommSensor.send_message` and routed by
`CommunicationHub.route_message`. -/
structure HubMessage where
  sender_id : ℕ
  message_type : Option String
  data : String
  timestamp : ℚ
  target_ids : Option (List ℕ)
  broadcast_range : Option ℚ
deriving DecidableEq, Repr

/-- The `CommunicationHub`: the registered sensors (`self.sensors`) and the
world's actors with their locations (the external environment consulted by
`_get_actors_in_range`). -/
structure CommunicationHub where
  sensors : List CommSensor
  world : List (ℕ × Vec3)

/-- Lookup `actor_id in self.sensors` / `self.sensors[actor_id]`. -/
def lookupSensor (hub : CommunicationHub) (i : ℕ) : Option CommSensor :=
  hub.sensors.find? (fun s => s.actor_id == i)

/-- Python truthiness of `target_ids`: `None` and the empty list are falsy. -/
def pyTruthyList (l : Option (List ℕ)) : Bool :=
  match l with
  | none => false
  | some l2 => !l2.isEmpty

/-- Python truthiness of `broadcast_range`: `None` and `0` are falsy. -/
def pyTruthyNum (r : Option ℚ) : Bool :=
  match r with
  | none => false
  | some r2 => r2 != 0

open Classical in
/-- Range query `CommunicationHub._get_actors_in_range` (simplesens.py lines 83-112):
empty unless the sender is registered and present in the world; otherwise
every other registered actor within `broadcast_range` of the sender. -/
noncomputable def get_actors_in_range (hub : CommunicationHub) (sender_id : ℕ)
    (broadcast_range : ℚ) : List ℕ :=
  if (lookupSensor hub sender_id).isNone then []
  else
    match hub.world.find? (fun a => a.1 == sender_id) with
    | none => []
    | some sa =>
        (hub.world.filter (fun a =>
          decide (a.1 ≠ sender_id) && (lookupSensor hub a.1).isSome &&
            decide (euclid sa.2 a.2 ≤ (broadcast_range : ℝ)))).map (fun a => a.1)

/-- The recipient set built by `CommunicationHub.route_message` (simplesens.py
lines 44-58) before the sender is discarded: explicit targets if truthy,
else the in-range actors if the range is truthy, else every registered
sensor. -/
noncomputable def routeBaseRecipients (hub : CommunicationHub) (sender_id : ℕ)
    (msg : HubMessage) : List ℕ :=
  if pyTruthyList msg.target_ids then msg.target_ids.getD []
  else if pyTruthyNum msg.broadcast_range then
    get_actors_in_range hub sender_id (msg.broadcast_range.getD 0)
  else hub.sensors.map (fun s => s.actor_id)

/-- The candidate recipients after `recipients.discard(sender_id)`
(simplesens.py line 61). -/
noncomputable def routeCandidates (hub : CommunicationHub) (sender_id : ℕ)
    (msg : HubMessage) : List ℕ :=
  (routeBaseRecipients hub sender_id msg).filter (fun r => r != sender_id)

/-- The per-recipient subscription gate (simplesens.py line 68):
`not sensor.subscriptions or message_type in sensor.subscriptions`. -/
def subscriptionOK (msg : HubMessage) (s : CommSensor) : Bool :=
  s.subscriptions.isEmpty ||
    (match msg.message_type with
     | some t => s.subscriptions.contains t
     | none => false)

/-- The ids `route_message` actually delivers to (simplesens.py lines
64-70): candidates that are registered and pass the subscription gate. -/
noncomputable def routeDeliveredIds (hub : CommunicationHub) (sender_id : ℕ)
    (msg : HubMessage) : List ℕ :=
  (routeCandidates hub sender_id msg).filter (fun r =>
    match lookupSensor hub r with
    | some srec => subscriptionOK msg srec
    | none => false)

theorem subscriptionOK_iff (msg : HubMessage) (s : CommSensor) :
    subscriptionOK msg s = true ↔
      s.subscriptions = [] ∨ ∃ t, msg.message_type = some t ∧ t ∈ s.subscriptions := by
  cases h : msg.message_type <;>
    simp [subscriptionOK, h, List.isEmpty_iff]

/-- C6.  Routing delivers to a candidate recipient iff it is registered and
its subscription set is empty or contains the message's type; the sender is
never delivered to; a station subscribed only to `"heartbeat"` never
receives a `"traffic_info"` message; and under explicit targeting the
candidate set is exactly the given ids minus the sender (unregistered ids
are then silently excluded by the registry check). -/
theorem route_subscription_gating (hub : CommunicationHub) (sender_id : ℕ)
    (msg : HubMessage) (r : ℕ) :
    (r ∈ routeDeliveredIds hub sender_id msg → r ≠ sender_id) ∧
    (r ∈ routeDeliveredIds hub sender_id msg → (lookupSensor hub r).isSome) ∧
    (∀ srec, lookupSensor hub r = some srec →
      (r ∈ routeDeliveredIds hub sender_id msg ↔
        r ∈ routeCandidates hub sender_id msg ∧
          (srec.subscriptions = [] ∨
            ∃ t, msg.message_type = some t ∧ t ∈ srec.subscriptions))) ∧
    (pyTruthyList msg.target_ids = true →
      (r ∈ routeCandidates hub sender_id msg ↔
        r ∈ msg.target_ids.getD [] ∧ r ≠ sender_id)) ∧
    (∀ srec, lookupSensor hub r = some srec → srec.subscriptions = ["heartbeat"] →
      msg.message_type = some "traffic_info" →
      r ∉ routeDeliveredIds hub sender_id msg) := by
  have hdel : r ∈ routeDeliveredIds hub sender_id msg ↔
      r ∈ routeCandidates hub sender_id msg ∧
        (match lookupSensor hub r with
         | some srec => subscriptionOK msg srec
         | none => false) = true := by
    simp [routeDeliveredIds, List.mem_filter]
  have hcand : r ∈ routeCandidates hub sender_id msg ↔
      r ∈ routeBaseRecipients hub sender_id msg ∧ r ≠ sender_id := by
    simp [routeCandidates, List.mem_filter]
  refine ⟨fun h => (hcand.mp (hdel.mp h).1).2, fun h => ?_, fun srec hs => ?_, fun ht => ?_,
    fun srec hs hsub htype hmem => ?_⟩
  · rcases hdel.mp h with ⟨-, h2⟩
    cases hl : lookupSensor hub r with
    | none => rw [hl] at h2; simp at h2
    | some srec => simp [hl]
  · rw [hdel, hs]
    rw [and_congr_right_iff]
    intro h
    exact subscriptionOK_iff msg srec
  · rw [hcand]
    rw [and_congr_left_iff]
    intro h
    simp [routeBaseRecipients, ht]
  · rcases (hdel.mp hmem) with ⟨-, h2⟩
    rw [hs] at h2
    rw [subscriptionOK_iff] at h2
    rw [hsub, htype] at h2
    rcases h2 with h2 | ⟨t, ht2, hmem2⟩
    · exact List.cons_ne_nil _ _ h2
    · rw [Option.some_inj] at ht2
      subst ht2
      rw [List.mem_singleton] at hmem2
      exact absurd hmem2 (by decide)

/-- A two-station hub: actor 1 subscribes to everything, actor 2 only to
`"heartbeat"`. -/
def hubW : CommunicationHub :=
  { sensors := [{ actor_id := 1, subscriptions := [] },
      { actor_id := 2, subscriptions := ["heartbeat"] }]
    world := [] }

/-- A `"traffic_info"` message from actor 1 targeted at actor 2. -/
def msgTraffic : HubMessage :=
  { sender_id := 1, message_type := some "traffic_info", data := "d", timestamp := 0,
    target_ids := some [1, 2], broadcast_range := none }

/-- A `"heartbeat"` message from actor 1 targeted at actor 2. -/
def msgHeartbeat : HubMessage :=
  { sender_id := 1, message_type := some "heartbeat", data := "d", timestamp := 0,
    target_ids := some [1, 2], broadcast_range := none }

/-- C6, witness: the station subscribed only to `"heartbeat"` receives a
targeted `"heartbeat"` but not a targeted `"traffic_info"`, and the sender
is excluded from its own target list. -/
theorem route_subscription_gating_witness :
    2 ∉ routeDeliveredIds hubW 1 msgTraffic ∧
    2 ∈ routeDeliveredIds hubW 1 msgHeartbeat ∧
    1 ∉ routeDeliveredIds hubW 1 msgHeartbeat :=
  ⟨(route_subscription_gating hubW 1 msgTraffic 2).2.2.2.2
      { actor_id := 2, subscriptions := ["heartbeat"] } rfl rfl rfl,
    ((route_subscription_gating hubW 1 msgHeartbeat 2).2.2.1
        { actor_id := 2, subscriptions := ["heartbeat"] } rfl).mpr
      ⟨((route_subscription_gating hubW 1 msgHeartbeat 2).2.2.2.1 rfl).mpr
          ⟨by decide, by decide⟩,
        Or.inr ⟨"heartbeat", rfl, by decide⟩⟩,
    fun h => (route_subscription_gating hubW 1 msgHeartbeat 1).1 h rfl⟩

/-- C10, amended.  Recipient selection in `route_message`: a truthy (present
and non-empty) target list wins and the broadcast range is ignored
entirely; the range-bounded selection applies exactly when the target list
is falsy and the range is truthy (present and non-zero); the
all-known-stations fallback applies exactly when the target list is falsy
*and the range is falsy — i.e. absent or equal to 0* (a present range of 0
is falsy in Python, so it falls through to the fallback rather than
selecting nobody). -/
theorem route_selection_amended (hub : CommunicationHub) (sender_id : ℕ) (msg : HubMessage) :
    (pyTruthyList msg.target_ids = true →
      ∀ rng, routeBaseRecipients hub sender_id { msg with broadcast_range := rng } =
        msg.target_ids.getD []) ∧
    (pyTruthyList msg.target_ids = false → pyTruthyNum msg.broadcast_range = true →
      routeBaseRecipients hub sender_id msg =
        get_actors_in_range hub sender_id (msg.broadcast_range.getD 0)) ∧
    (pyTruthyList msg.target_ids = false → pyTruthyNum msg.broadcast_range = false →
      routeBaseRecipients hub sender_id msg = hub.sensors.map (fun s => s.actor_id)) := by
  refine ⟨fun ht rng => ?_, fun ht hr => ?_, fun ht hr => ?_⟩
  · simp [routeBaseRecipients, ht]
  · simp [routeBaseRecipients, ht, hr]
  · simp [routeBaseRecipients, ht, hr]

/-- C10 amended, witness: with a truthy target list the range is ignored
(here a present, non-zero range), and with both falsy the fallback applies. -/
theorem route_selection_amended_witness :
    routeBaseRecipients hubW 1
      { sender_id := 1, message_type := some "x", data := "d", timestamp := 0,
        target_ids := some [2], broadcast_range := some 5 } = [2] ∧
    routeBaseRecipients hubW 1
      { sender_id := 1, message_type := some "x", data := "d", timestamp := 0,
        target_ids := none, broadcast_range := none } = [1, 2] :=
  ⟨route_selection_amended hubW 1
      { sender_id := 1, message_type := some "x", data := "d", timestamp := 0,
        target_ids := some [2], broadcast_range := some 5 } |>.1 rfl (some 5),
    route_selection_amended hubW 1
      { sender_id := 1, message_type := some "x", data := "d", timestamp := 0,
        target_ids := none, broadcast_range := none } |>.2.2 rfl rfl⟩

/-- A hub with two mutually-subscribed stations 10 m apart in the world. -/
def hubC : CommunicationHub :=
  { sensors := [{ actor_id := 1, subscriptions := [] },
      { actor_id := 2, subscriptions := [] }]
    world := [(1, ⟨0, 0, 0⟩), (2, ⟨10, 0, 0⟩)] }

/-- A message with no targets and a *present but zero* broadcast range. -/
def msgZeroRange : HubMessage :=
  { sender_id := 1, message_type := some "x", data := "d", timestamp := 0,
    target_ids := none, broadcast_range := some 0 }

/-- C10, counterexample.  With no target ids and a present (non-null)
broadcast range of 0, the claim requires the range-bounded selection, which
would reach nobody 10 m away; but `0` is falsy in Python, so the code takes
the all-known-stations fallback and delivers to actor 2 anyway. -/
theorem route_selection_counterexample :
    msgZeroRange.target_ids = none ∧
    msgZeroRange.broadcast_range = some 0 ∧
    ¬ euclid ⟨0, 0, 0⟩ ⟨10, 0, 0⟩ ≤ ((0 : ℚ) : ℝ) ∧
    routeDeliveredIds hubC 1 msgZeroRange = [2] := by
  refine ⟨rfl, rfl, ?_, ?_⟩
  · rw [show ((⟨10, 0, 0⟩ : Vec3)) = (⟨(10 : ℚ), 0, 0⟩ : Vec3) from rfl, euclid_axis]
    · push_cast
      norm_num
    · norm_num
  · rfl

/-- The bridge-session state of `V2XWebSocketBridge`: whether a websocket
session is active, whether the player's real sensor was found, the real
sensor's handler list (handlers identified by opaque ids, the forwarding
handler among them), the saved `original_message_handlers`, and whether the
virtual sensor is registered in `v2x_sensors`. -/
structure BridgeState where
  websocket : Bool
  player_found : Bool
  player_handlers : List ℕ
  original_message_handlers : List ℕ
  virtual_in_registry : Bool
deriving DecidableEq, Repr

/-- Setup `V2XWebSocketBridge._setup_player_sensor_proxy` (websocket_bridge.py
lines 99-117): if the player sensor is found, save a copy of its handler
list and append the forwarding handler `fwd`; otherwise log and return. -/
def setup_player_sensor_proxy (fwd : ℕ) (b : BridgeState) : BridgeState :=
  if b.player_found then
    { b with
      original_message_handlers := b.player_handlers
      player_handlers := b.player_handlers ++ [fwd] }
  else b

/-- The accepting path of `V2XWebSocketBridge.handle_client` (websocket_bridge.py
lines 65-84): reject if a session is active; otherwise store the socket,
set up the proxy and register the virtual sensor. -/
def handle_client_accept (fwd : ℕ) (b : BridgeState) : BridgeState :=
  if b.websocket then b
  else
    let b1 := { b with websocket := true }
    let b2 := setup_player_sensor_proxy fwd b1
    { b2 with virtual_in_registry := true }

/-- Teardown `V2XWebSocketBridge._cleanup_client` (websocket_bridge.py lines 192-211):
clear the socket; restore the saved handler list only when the player
sensor is present *and the saved list is truthy (non-empty)*; destroy the
virtual sensor. -/
def cleanup_client (b : BridgeState) : BridgeState :=
  let b1 := { b with websocket := false }
  let b2 := if b1.player_found && !b1.original_message_handlers.isEmpty then
      { b1 with player_handlers := b1.original_message_handlers }
    else b1
  { b2 with virtual_in_registry := false }

/-- A bridge whose player sensor exists and has no handlers yet — the state
before any connection is accepted. -/
def bridgeStart : BridgeState :=
  { websocket := false, player_found := true, player_handlers := [],
    original_message_handlers := [], virtual_in_registry := false }

/-- C3, at the failing input.  When the real station had *no* handlers
before the connection, teardown leaves the forwarding handler behind: the
guard `if self.player_sensor and self.original_message_handlers:` is falsy
for the (legitimately) empty saved list, so the restore is skipped and the
handler list after disconnect is `[fwd] ≠ []`.  The virtual sensor is
removed and the session reference cleared, so only the handler-restoration
part of the claim fails. -/
theorem bridge_cleanup_leaks_handler :
    bridgeStart.player_handlers = [] ∧
    (cleanup_client (handle_client_accept 7 bridgeStart)).player_handlers = [7] ∧
    (cleanup_client (handle_client_accept 7 bridgeStart)).websocket = false ∧
    (cleanup_client (handle_client_accept 7 bridgeStart)).virtual_in_registry = false := by
  decide

/-- The restoration does work when the pre-connection handler list is
non-empty: with at least one original handler, teardown restores the exact
original list, removes the virtual sensor and clears the session. -/
theorem bridge_cleanup_restores_nonempty (fwd h0 : ℕ) (hs : List ℕ) (vreg : Bool) :
    cleanup_client (handle_client_accept fwd
        { websocket := false, player_found := true, player_handlers := h0 :: hs,
          original_message_handlers := [], virtual_in_registry := vreg }) =
      { websocket := false, player_found := true, player_handlers := h0 :: hs,
        original_message_handlers := h0 :: hs, virtual_in_registry := false } := by
  simp [cleanup_client, handle_client_accept, setup_player_sensor_proxy]

theorem bridge_cleanup_restores_nonempty_witness :
    cleanup_client (handle_client_accept 7
        { websocket := false, player_found := true, player_handlers := [3],
          original_message_handlers := [], virtual_in_registry := false }) =
      { websocket := false, player_found := true, player_handlers := [3],
        original_message_handlers := [3], virtual_in_registry := false } :=
  bridge_cleanup_restores_nonempty 7 3 [] false

/-- An inbound websocket frame after `json.loads`: either the parse raised
`JSONDecodeError`, or a JSON object with its `"type"` field, its `"payload"`
(absent or malformed payloads raise inside the `cam` branch, modelled as
`Except.error`), and its `"timestamp"` field. -/
inductive InboundFrame where
  | invalidJson
  | obj (ty : Option String) (payload : Except String WireCAM) (timestamp : Option String)

/-- A reply sent back over the websocket by the inbound handler. -/
inductive OutboundMsg where
  | pong (timestamp : Option String)
  | error (message : String)
deriving DecidableEq, Repr

/-- The observable outcome of `_handle_incoming_message`: the replies sent
to the client, the CAM injected via the virtual sensor (if any), and
whether the inbound loop keeps running afterwards. -/
structure HandleResult where
  replies : List OutboundMsg
  injected : Option CAMData
  loopContinues : Bool
deriving DecidableEq

/-- Handler `V2XWebSocketBridge._handle_incoming_message` (websocket_bridge.py lines
119-146).  A `cam` frame decodes its payload (failures are caught and
answered with a `Processing error` reply), rewrites an empty or placeholder
sender id to `hero_<vehicle id>`, and injects via the virtual sensor when
one exists; a `ping` frame is answered with a `pong` echoing the timestamp;
an invalid JSON frame is answered with an `Invalid JSON format` error; any
other frame falls through every branch and is silently dropped.  No path
terminates the inbound loop. -/
def handle_incoming_message (heroId : ℕ) (now : Datetime) (virtualPresent : Bool)
    (m : InboundFrame) : HandleResult :=
  match m with
  | .invalidJson =>
      { replies := [.error "Invalid JSON format"], injected := none, loopContinues := true }
  | .obj ty payload ts =>
      if ty = some "cam" then
        match payload with
        | .error e =>
            { replies := [.error ("Processing error: " ++ e)], injected := none,
              loopContinues := true }
        | .ok w =>
            let cam := CAMData.from_dict now w
            let cam := if cam.sender_id = "" ∨ cam.sender_id = "websocket_client" then
                { cam with sender_id := "hero_" ++ toString heroId } else cam
            { replies := [],
              injected := if virtualPresent then some cam else none,
              loopContinues := true }
      else if ty = some "ping" then
        { replies := [.pong ts], injected := none, loopContinues := true }
      else { replies := [], injected := none, loopContinues := true }

/-- A minimal wire payload (every optional field absent). -/
def wireMin : WireCAM :=
  { sender_id := "s", timestamp := none, extensions := [], station_id := "s",
    generation_delta_time := 0, station_type := "passenger-car", position := none,
    heading := none, speed := none, acceleration := none, yaw_rate := none,
    vehicle_role := none, path_history := none, vehicle_data := none }

/-- C7, counterexample.  A well-formed frame whose kind is neither `cam` nor
`ping` (here `"status"`) produces *no* reply at all — in particular no
`error` reply — because `_handle_incoming_message` has no `else` branch;
only the loop-continuation half of the claim holds. -/
theorem bridge_unknown_kind_counterexample :
    (handle_incoming_message 1 nowD true (.obj (some "status") (.ok wireMin) none)).replies
        = [] ∧
    (handle_incoming_message 1 nowD true
        (.obj (some "status") (.ok wireMin) none)).loopContinues = true := by
  exact ⟨rfl, rfl⟩

/-- C7, amended.  Invalid JSON and `cam` payloads that fail to decode are
answered with an `error` reply carrying a reason; a well-formed frame of
any *other* kind is silently ignored (no reply, nothing injected); and in
every case the inbound loop continues — no frame is fatal to the session. -/
theorem bridge_error_handling_amended (heroId : ℕ) (now : Datetime) (vp : Bool) :
    (handle_incoming_message heroId now vp .invalidJson).replies =
      [.error "Invalid JSON format"] ∧
    (∀ e ts, (handle_incoming_message heroId now vp (.obj (some "cam") (.error e) ts)).replies
      = [.error ("Processing error: " ++ e)]) ∧
    (∀ ty payload ts, ty ≠ some "cam" → ty ≠ some "ping" →
      handle_incoming_message heroId now vp (.obj ty payload ts) =
        { replies := [], injected := none, loopContinues := true }) ∧
    (∀ m, (handle_incoming_message heroId now vp m).loopContinues = true) := by
  refine ⟨rfl, fun e ts => rfl, fun ty payload ts h1 h2 => ?_, fun m => ?_⟩
  · simp [handle_incoming_message, h1, h2]
  · cases m with
    | invalidJson => rfl
    | obj ty payload ts =>
        by_cases h1 : ty = some "cam"
        · subst h1
          cases payload with
          | error e => rfl
          | ok w => rfl
        · by_cases h2 : ty = some "ping"
          · subst h2
            rfl
          · simp [handle_incoming_message, h1, h2]

/-- C7 amended, witness: the amended statement exercised on a frame of the
unrecognized kind `"hello"`, which is dropped without a reply while the
loop continues. -/
theorem bridge_error_handling_amended_witness :
    handle_incoming_message 1 nowD true (.obj (some "hello") (.ok wireMin) none) =
      { replies := [], injected := none, loopContinues := true } ∧
    (handle_incoming_message 1 nowD true .invalidJson).replies =
      [.error "Invalid JSON format"] :=
  ⟨(bridge_error_handling_amended 1 nowD true).2.2.1 (some "hello") (.ok wireMin) none
      (by decide) (by decide),
    (bridge_error_handling_amended 1 nowD true).1⟩

end CtfPackage
